import Mathlib

/-
Verification of the document-parser HTTP service (src/app.py) against its
design specification.

The embedding models:
- the parser registry PARSER_MAP (app.py lines 31-42);
- the extension derivation pipeline of line 58, that is
  pathlib Path(filename).suffix followed by str.lower();
- the scratch-file cleanup retry loop of lines 81-97, driven by an oracle
  giving the outcome of each os.unlink attempt;
- the request handler parse_document (lines 44-103) as a pure function of
  the file name and of oracles for the staging write outcome and the
  parser invocation outcome;
- the introspection endpoint get_supported_formats (lines 105-108).

Parser capabilities are opaque in the source (imported from deepdoc), so a
parser run is modelled as an oracle ParserId -> Except String content: an
Except.error msg models the capability raising an exception e with
str(e) = msg.

Exception flow modelled exactly as Python executes it: the
HTTPException(400) raised at line 62 is itself an Exception, so it is
caught by the blanket except at line 99 and re-raised as
HTTPException(500, "Error processing file: " ++ str(e)); str of a
starlette HTTPException is "<status>: <detail>".
-/

/-- The eight parser classes imported at app.py lines 10-13. -/
inductive ParserId where
  | PdfParser
  | DocxParser
  | ExcelParser
  | PptParser
  | HtmlParser
  | JsonParser
  | MarkdownParser
  | TxtParser
  deriving DecidableEq, Repr

/-- PARSER_MAP of app.py lines 31-42, in source insertion order (a Python
dict preserves insertion order, so this list order is also the order seen
by callers iterating the keys). -/
def PARSER_MAP : List (String × ParserId) :=
  [(".pdf", ParserId.PdfParser),
   (".docx", ParserId.DocxParser),
   (".xlsx", ParserId.ExcelParser),
   (".xls", ParserId.ExcelParser),
   (".pptx", ParserId.PptParser),
   (".ppt", ParserId.PptParser),
   (".html", ParserId.HtmlParser),
   (".json", ParserId.JsonParser),
   (".md", ParserId.MarkdownParser),
   (".txt", ParserId.TxtParser)]

/-- list(PARSER_MAP.keys()): the registry keys in insertion order. -/
def parserMapKeys : List String := PARSER_MAP.map Prod.fst

/-- Final path component, as pathlib computes it on posix: split the string
on the separator, drop empty segments and "." segments, take the last
remaining segment. Implemented as a left scan carrying the last completed
candidate segment and the segment currently being read. -/
def pyNameGo : List Char → List Char → List Char → List Char
  | [], last, cur => if cur ≠ [] ∧ cur ≠ ['.'] then cur else last
  | c :: rest, last, cur =>
    if c = '/' then
      pyNameGo rest (if cur ≠ [] ∧ cur ≠ ['.'] then cur else last) []
    else
      pyNameGo rest last (cur ++ [c])

/-- Split a character list around its LAST dot: returns (before, after)
with the dot removed, where after contains no dot; none if there is no
dot at all. -/
def splitLastDot : List Char → Option (List Char × List Char)
  | [] => none
  | c :: rest =>
    match splitLastDot rest with
    | some (b, a) => some (c :: b, a)
    | none => if c = '.' then some ([], rest) else none

/-- pathlib suffix of a final path component: with i the index of the last
dot, the suffix is name[i:] when 0 < i < len(name) - 1, else the empty
string. In terms of splitLastDot (before, after): the suffix is
"." ++ after when before and after are both nonempty. -/
def pySuffixOfName (name : List Char) : List Char :=
  match splitLastDot name with
  | none => []
  | some (b, a) => if b ≠ [] ∧ a ≠ [] then '.' :: a else []

/-- Path(filename).suffix of app.py line 58. -/
def pySuffix (s : String) : String :=
  ⟨pySuffixOfName (pyNameGo s.data [] [])⟩

/-- str.lower() of app.py line 58 (ASCII range; every registered
extension is ASCII). -/
def pyLower (s : String) : String :=
  ⟨s.data.map Char.toLower⟩

/-- str.upper(), used to state the case-insensitivity property. -/
def pyUpper (s : String) : String :=
  ⟨s.data.map Char.toUpper⟩

/-- The dispatch the handler performs: lower-case the extension
(line 58), then look it up in PARSER_MAP (lines 61 and 77). -/
def Lookup (ext : String) : Option ParserId :=
  List.lookup (pyLower ext) PARSER_MAP

/-- Outcome of one os.unlink attempt inside the cleanup loop
(app.py line 89): success, PermissionError (the lock/permission class
caught at line 91), or any other exception class (caught only by the
enclosing except at line 96). -/
inductive DelResult where
  | ok
  | permErr
  | otherErr
  deriving DecidableEq, Repr

/-- Observable trace of one run of the cleanup block (app.py lines
82-97): number of os.unlink calls made, number of 100ms time.sleep calls
made, whether a warning was printed, and whether the scratch file is gone
at the end. -/
structure CleanupLog where
  attempts : Nat
  sleeps : Nat
  warned : Bool
  fileGone : Bool
  deriving DecidableEq, Repr

/-- The retry loop of app.py lines 85-95, with max_retries = 3:
for i in range(3): try unlink and break; on PermissionError sleep 100ms
and continue if i < 2, else print a warning; any other exception escapes
the loop to the except at line 96, which prints a warning. The argument r
is the number of loop iterations still available (so i = 3 - r), a counts
unlink calls so far, s counts sleeps so far; oracle a is the outcome of
the (a+1)-th unlink call. -/
def cleanupGo (oracle : Nat → DelResult) : Nat → Nat → Nat → CleanupLog
  | 0, a, s => ⟨a, s, true, false⟩
  | r + 1, a, s =>
    match oracle a with
    | DelResult.ok => ⟨a + 1, s, false, true⟩
    | DelResult.otherErr => ⟨a + 1, s, true, false⟩
    | DelResult.permErr =>
      if r = 0 then ⟨a + 1, s, true, false⟩
      else cleanupGo oracle r (a + 1) (s + 1)

/-- The whole cleanup block of app.py lines 82-97 for one scratch file.
The ex flag is the os.path.exists check of line 88 at entry: when the
file is already absent the loop breaks with no unlink call. Within one
request the staged file exists until an unlink succeeds, so the handler
below always enters with ex = true. -/
def runCleanup (oracle : Nat → DelResult) (ex : Bool) : CleanupLog :=
  if ex then cleanupGo oracle 3 0 0 else ⟨0, 0, false, true⟩

/-- Body of the HTTP response: the success envelope
(status: success, content) of line 80, or the detail field of an
HTTPException as FastAPI serializes it. -/
inductive ResponseBody (α : Type) where
  | success (content : α)
  | errorDetail (detail : String)
  deriving DecidableEq, Repr

/-- Everything observable about one handled request: HTTP status and
body, how many scratch files were created, which parser capability was
invoked (none if the request never reached line 77), and the cleanup
trace (none if the cleanup block never ran). -/
structure HandlerOutcome (α : Type) where
  status : Nat
  body : ResponseBody α
  filesCreated : Nat
  parserInvoked : Option ParserId
  cleanup : Option CleanupLog
  deriving DecidableEq, Repr

/-- The detail string of the HTTPException raised at app.py lines 62-65:
f"Unsupported file type: \x7bsuffix\x7d. Supported types are:
\x7b, .join(PARSER_MAP.keys())\x7d". -/
def unsupportedDetail (ext : String) : String :=
  "Unsupported file type: " ++ ext ++ ". Supported types are: " ++
    String.intercalate ", " parserMapKeys

/-- str(e) for a starlette HTTPException: "<status_code>: <detail>". -/
def strHTTPException (status : Nat) (detail : String) : String :=
  Nat.repr status ++ ": " ++ detail

/-- The outcome the handler actually produces on the unsupported-format
path: the HTTPException(400, unsupportedDetail ext) raised at line 62 is
an Exception, so the blanket except at line 99 catches it and raises
HTTPException(500, "Error processing file: " ++ str(e)) instead. No
scratch file has been created and the cleanup block never runs, because
line 62 is reached before line 68 and the inner try/finally was never
entered. -/
def unsupportedOutcome (α : Type) (ext : String) : HandlerOutcome α :=
  ⟨500,
   ResponseBody.errorDetail
     ("Error processing file: " ++ strHTTPException 400 (unsupportedDetail ext)),
   0, none, none⟩

/-- The POST /parse handler parse_document of app.py lines 44-103.
Oracles: stage is the outcome of lines 71-74 (read, write, flush, close;
an error msg models an exception e with str(e) = msg raised there),
runParser p the outcome of lines 77-79 for parser class p, delOracle the
unlink outcomes for the cleanup loop. NamedTemporaryFile at line 68
creates exactly one file on disk and is modelled as always succeeding
(the staging failure class of the spec is the write/flush failure).
On every path that entered the inner try, the finally at line 81 runs the
cleanup block before the exception (if any) propagates to line 99. -/
def parse_document (α : Type) (filename : String) (stage : Except String Unit)
    (runParser : ParserId → Except String α) (delOracle : Nat → DelResult) :
    HandlerOutcome α :=
  match List.lookup (pyLower (pySuffix filename)) PARSER_MAP with
  | none => unsupportedOutcome α (pyLower (pySuffix filename))
  | some p =>
    match stage with
    | Except.error m =>
      ⟨500, ResponseBody.errorDetail ("Error processing file: " ++ m),
       1, none, some (runCleanup delOracle true)⟩
    | Except.ok _ =>
      match runParser p with
      | Except.ok c =>
        ⟨200, ResponseBody.success c,
         1, some p, some (runCleanup delOracle true)⟩
      | Except.error m =>
        ⟨500, ResponseBody.errorDetail ("Error processing file: " ++ m),
         1, some p, some (runCleanup delOracle true)⟩

/-- Response body of GET /supported-formats (app.py line 108). -/
structure SupportedFormatsResponse where
  supported_formats : List String
  deriving DecidableEq, Repr

/-- The GET /supported-formats handler of app.py lines 105-108. It reads
the module-level PARSER_MAP, which no code in the module ever mutates
after initialization, so in the embedding it is a constant. -/
def get_supported_formats : SupportedFormatsResponse :=
  ⟨parserMapKeys⟩

/-! Helper lemmas about the cleanup retry loop. None of these is a claim
theorem; the claim theorems below use them. -/

theorem cleanupGo_attempts_le (o : Nat → DelResult) :
    ∀ r a s, (cleanupGo o r a s).attempts ≤ a + r := by
  intro r
  induction r with
  | zero => intro a s; simp [cleanupGo]
  | succ r ih =>
    intro a s
    simp only [cleanupGo]
    cases o a with
    | ok => simp
    | otherErr => simp
    | permErr =>
      by_cases hr : r = 0
      · simp [hr]
      · simp only [hr, if_false]
        have := ih (a + 1) (s + 1)
        omega

theorem cleanupGo_attempts_pos (o : Nat → DelResult) :
    ∀ r a s, 1 ≤ r → a < (cleanupGo o r a s).attempts := by
  intro r
  induction r with
  | zero => intro a s h; omega
  | succ r ih =>
    intro a s _
    simp only [cleanupGo]
    cases o a with
    | ok => simp
    | otherErr => simp
    | permErr =>
      by_cases hr : r = 0
      · simp [hr]
      · simp only [hr, if_false]
        have := ih (a + 1) (s + 1) (by omega)
        omega

theorem cleanupGo_sleeps (o : Nat → DelResult) :
    ∀ r a s, a < (cleanupGo o r a s).attempts →
      (cleanupGo o r a s).sleeps + a + 1 = s + (cleanupGo o r a s).attempts := by
  intro r
  induction r with
  | zero => intro a s h; simp [cleanupGo] at h
  | succ r ih =>
    intro a s _
    simp only [cleanupGo]
    cases o a with
    | ok => simp; omega
    | otherErr => simp; omega
    | permErr =>
      by_cases hr : r = 0
      · simp [hr]; omega
      · simp only [hr, if_false]
        have h1 := cleanupGo_attempts_pos o r (a + 1) (s + 1) (by omega)
        have h2 := ih (a + 1) (s + 1) h1
        omega

theorem cleanupGo_retry_only_perm (o : Nat → DelResult) :
    ∀ r a s j, a ≤ j → j + 1 < (cleanupGo o r a s).attempts →
      o j = DelResult.permErr := by
  intro r
  induction r with
  | zero => intro a s j haj h; simp [cleanupGo] at h; omega
  | succ r ih =>
    intro a s j haj h
    simp only [cleanupGo] at h
    cases ho : o a with
    | ok => rw [ho] at h; simp at h; omega
    | otherErr => rw [ho] at h; simp at h; omega
    | permErr =>
      rw [ho] at h
      by_cases hr : r = 0
      · rw [hr] at h; simp at h; omega
      · simp only [hr, if_false] at h
        rcases Nat.lt_or_ge j (a + 1) with hj | hj
        · have : j = a := by omega
          rw [this, ho]
        · exact ih (a + 1) (s + 1) j hj h

theorem cleanupGo_gone_or_warned (o : Nat → DelResult) :
    ∀ r a s, (cleanupGo o r a s).fileGone = true ∨ (cleanupGo o r a s).warned = true := by
  intro r
  induction r with
  | zero => intro a s; simp [cleanupGo]
  | succ r ih =>
    intro a s
    simp only [cleanupGo]
    cases o a with
    | ok => simp
    | otherErr => simp
    | permErr =>
      by_cases hr : r = 0
      · simp [hr]
      · simp only [hr, if_false]
        exact ih (a + 1) (s + 1)

/-! Helper lemmas about the suffix derivation. -/

theorem pyNameGo_no_dot :
    ∀ (s last cur : List Char), (∀ c ∈ s, c ≠ '.') → (∀ c ∈ last, c ≠ '.') →
      (∀ c ∈ cur, c ≠ '.') → ∀ c ∈ pyNameGo s last cur, c ≠ '.' := by
  intro s
  induction s with
  | nil =>
    intro last cur _ hl hc
    simp only [pyNameGo]
    split
    · exact hc
    · exact hl
  | cons c rest ih =>
    intro last cur hs hl hc
    simp only [pyNameGo]
    split
    · refine ih _ [] (fun x hx => hs x (List.mem_cons_of_mem _ hx)) ?_ (by simp)
      split
      · exact hc
      · exact hl
    · refine ih last (cur ++ [c]) (fun x hx => hs x (List.mem_cons_of_mem _ hx)) hl ?_
      intro x hx
      rcases List.mem_append.mp hx with hx1 | hx2
      · exact hc x hx1
      · rw [List.mem_singleton.mp hx2]
        exact hs c (List.mem_cons_self _ _)

theorem splitLastDot_eq_none :
    ∀ l : List Char, (∀ c ∈ l, c ≠ '.') → splitLastDot l = none := by
  intro l
  induction l with
  | nil => intro _; rfl
  | cons c rest ih =>
    intro h
    simp only [splitLastDot]
    rw [ih (fun x hx => h x (List.mem_cons_of_mem _ hx))]
    simp only [if_neg (h c (List.mem_cons_self _ _))]

theorem pySuffix_eq_empty (fn : String) (h : ∀ c ∈ fn.data, c ≠ '.') :
    pySuffix fn = "" := by
  have hn : ∀ c ∈ pyNameGo fn.data [] [], c ≠ '.' :=
    pyNameGo_no_dot fn.data [] [] h (by simp) (by simp)
  unfold pySuffix pySuffixOfName
  rw [splitLastDot_eq_none _ hn]

theorem runCleanup_gone_or_warned (o : Nat → DelResult) (ex : Bool) :
    (runCleanup o ex).fileGone = true ∨ (runCleanup o ex).warned = true := by
  cases ex with
  | false => simp [runCleanup]
  | true => simpa [runCleanup] using cleanupGo_gone_or_warned o 3 0 0

/-! The claim theorems. -/

/-- C1: the claim says an upload whose lower-cased extension is not a
registry key gets HTTP 400 with detail "Unsupported file type: ...". The
code does not do this: the HTTPException(400) raised at line 62 is an
Exception, so the blanket except at line 99 of the same handler catches
it and re-raises HTTPException(500, "Error processing file: " ++ str(e)).
At the failing input notes.xyz the handler therefore responds 500, not
400. -/
theorem claim_C1 :
    (parse_document Nat "notes.xyz" (Except.ok ())
        (fun _ => Except.ok 0) (fun _ => DelResult.ok)).status = 500 ∧
    ¬ (parse_document Nat "notes.xyz" (Except.ok ())
        (fun _ => Except.ok 0) (fun _ => DelResult.ok)).status = 400 := by
  decide

/-- C2: every request whose extension is registered (so it reaches the
staging step at line 68) creates exactly one scratch file, and on every
exit path (staging failure, parser failure, parser success) the cleanup
block runs before the handler finishes, ending with the file gone or
with a logged warning after the retries are exhausted. -/
theorem claim_C2 (α : Type) (fn : String) (stage : Except String Unit)
    (rp : ParserId → Except String α) (dor : Nat → DelResult)
    (h : (List.lookup (pyLower (pySuffix fn)) PARSER_MAP).isSome = true) :
    (parse_document α fn stage rp dor).filesCreated = 1 ∧
    (parse_document α fn stage rp dor).cleanup = some (runCleanup dor true) ∧
    ((runCleanup dor true).fileGone = true ∨ (runCleanup dor true).warned = true) := by
  obtain ⟨p, hp⟩ := Option.isSome_iff_exists.mp h
  refine ⟨?_, ?_, runCleanup_gone_or_warned dor true⟩
  all_goals
    cases stage with
    | error m => simp only [parse_document, hp]
    | ok u =>
      cases hc : rp p with
      | ok c => simp only [parse_document, hp, hc]
      | error m => simp only [parse_document, hp, hc]

theorem claim_C2_witness :
    (parse_document Nat "a.pdf" (Except.ok ())
        (fun _ => Except.ok 0) (fun _ => DelResult.ok)).filesCreated = 1 ∧
    (parse_document Nat "a.pdf" (Except.ok ()) (fun _ => Except.ok 0)
        (fun _ => DelResult.ok)).cleanup =
      some (runCleanup (fun _ => DelResult.ok) true) ∧
    ((runCleanup (fun _ => DelResult.ok) true).fileGone = true ∨
      (runCleanup (fun _ => DelResult.ok) true).warned = true) :=
  claim_C2 Nat "a.pdf" (Except.ok ()) (fun _ => Except.ok 0)
    (fun _ => DelResult.ok) (by decide)

/-- C3: the deletion policy of lines 85-95 makes at most 3 unlink
attempts, performs exactly one 100ms sleep between consecutive attempts
(so total waiting is bounded by 300ms), and any attempt that is followed
by another attempt failed with PermissionError, the lock/permission
class: a failure of any other class aborts retrying immediately. -/
theorem claim_C3 (o : Nat → DelResult) :
    (runCleanup o true).attempts ≤ 3 ∧
    (runCleanup o true).sleeps + 1 = (runCleanup o true).attempts ∧
    100 * (runCleanup o true).sleeps ≤ 300 ∧
    ∀ j, j + 1 < (runCleanup o true).attempts → o j = DelResult.permErr := by
  have hrc : runCleanup o true = cleanupGo o 3 0 0 := rfl
  have h1 := cleanupGo_attempts_le o 3 0 0
  have h2 := cleanupGo_attempts_pos o 3 0 0 (by omega)
  have h3 := cleanupGo_sleeps o 3 0 0 h2
  refine ⟨by rw [hrc]; omega, by rw [hrc]; omega, by rw [hrc]; omega, ?_⟩
  intro j hj
  rw [hrc] at hj
  exact cleanupGo_retry_only_perm o 3 0 0 j (Nat.zero_le j) hj

theorem claim_C3_witness :
    (fun _ : Nat => DelResult.permErr) 0 = DelResult.permErr :=
  (claim_C3 (fun _ => DelResult.permErr)).2.2.2 0 (by decide)

/-- C4: the response (status and body) is a function of the file name,
the staging outcome and the parser outcome alone: two runs with the same
inputs but arbitrary different deletion outcomes produce the same
response, so the cleanup phase can never turn a success into a failure
response or vice versa. -/
theorem claim_C4 (α : Type) (fn : String) (stage : Except String Unit)
    (rp : ParserId → Except String α) (dor1 dor2 : Nat → DelResult) :
    (parse_document α fn stage rp dor1).status = (parse_document α fn stage rp dor2).status ∧
    (parse_document α fn stage rp dor1).body = (parse_document α fn stage rp dor2).body := by
  refine ⟨?_, ?_⟩
  all_goals
    cases hl : List.lookup (pyLower (pySuffix fn)) PARSER_MAP with
    | none => simp only [parse_document, hl]
    | some p =>
      cases stage with
      | error m => simp only [parse_document, hl]
      | ok u =>
        cases hc : rp p with
        | ok c => simp only [parse_document, hl, hc]
        | error m => simp only [parse_document, hl, hc]

/-- C5: when the selected parser capability raises with message msg on a
validly staged file, the handler catches it at line 99 and responds 500
with detail "Error processing file: " ++ msg; no fault escapes the
handler (the outcome is a total function of the oracles), and the
cleanup block still runs, ending with the file gone or a logged
warning. -/
theorem claim_C5 (α : Type) (fn : String) (rp : ParserId → Except String α)
    (dor : Nat → DelResult) (p : ParserId) (msg : String)
    (hp : List.lookup (pyLower (pySuffix fn)) PARSER_MAP = some p)
    (he : rp p = Except.error msg) :
    (parse_document α fn (Except.ok ()) rp dor).status = 500 ∧
    (parse_document α fn (Except.ok ()) rp dor).body =
      ResponseBody.errorDetail ("Error processing file: " ++ msg) ∧
    (parse_document α fn (Except.ok ()) rp dor).cleanup = some (runCleanup dor true) ∧
    ((runCleanup dor true).fileGone = true ∨ (runCleanup dor true).warned = true) := by
  have e : parse_document α fn (Except.ok ()) rp dor =
      ⟨500, ResponseBody.errorDetail ("Error processing file: " ++ msg),
       1, some p, some (runCleanup dor true)⟩ := by
    simp only [parse_document, hp, he]
  rw [e]
  exact ⟨rfl, rfl, rfl, runCleanup_gone_or_warned dor true⟩

theorem claim_C5_witness :
    (parse_document Nat "a.pdf" (Except.ok ())
        (fun _ => Except.error "boom") (fun _ => DelResult.ok)).status = 500 ∧
    (parse_document Nat "a.pdf" (Except.ok ()) (fun _ => Except.error "boom")
        (fun _ => DelResult.ok)).body =
      ResponseBody.errorDetail ("Error processing file: " ++ "boom") ∧
    (parse_document Nat "a.pdf" (Except.ok ()) (fun _ => Except.error "boom")
        (fun _ => DelResult.ok)).cleanup =
      some (runCleanup (fun _ => DelResult.ok) true) ∧
    ((runCleanup (fun _ => DelResult.ok) true).fileGone = true ∨
      (runCleanup (fun _ => DelResult.ok) true).warned = true) :=
  claim_C5 Nat "a.pdf" (fun _ => Except.error "boom") (fun _ => DelResult.ok)
    ParserId.PdfParser "boom" (by decide) rfl

/-- C6: extension dispatch is case-insensitive for every registered
extension: Lookup lower-cases its argument before consulting PARSER_MAP
(line 58 before lines 61 and 77), so the upper-cased form of any
registered key selects the same parser capability, and every registered
key is found. -/
theorem claim_C6 (ext : String) (h : ext ∈ parserMapKeys) :
    (Lookup ext).isSome = true ∧ Lookup (pyUpper ext) = Lookup ext := by
  fin_cases h <;> exact ⟨rfl, rfl⟩

theorem claim_C6_witness :
    (Lookup ".pdf").isSome = true ∧ Lookup (pyUpper ".pdf") = Lookup ".pdf" :=
  claim_C6 ".pdf" (by decide)

/-- C7: an upload whose lower-cased extension is not a registry key
never creates a scratch file: the membership check at line 61 precedes
the NamedTemporaryFile call at line 68, so the unsupported path creates
no file, runs no cleanup and invokes no parser. -/
theorem claim_C7 (α : Type) (fn : String) (stage : Except String Unit)
    (rp : ParserId → Except String α) (dor : Nat → DelResult)
    (h : List.lookup (pyLower (pySuffix fn)) PARSER_MAP = none) :
    parse_document α fn stage rp dor = unsupportedOutcome α (pyLower (pySuffix fn)) ∧
    (parse_document α fn stage rp dor).filesCreated = 0 ∧
    (parse_document α fn stage rp dor).cleanup = none ∧
    (parse_document α fn stage rp dor).parserInvoked = none := by
  have e : parse_document α fn stage rp dor = unsupportedOutcome α (pyLower (pySuffix fn)) := by
    simp only [parse_document, h]
  rw [e]
  exact ⟨rfl, rfl, rfl, rfl⟩

theorem claim_C7_witness :
    parse_document Nat "notes.xyz" (Except.ok ()) (fun _ => Except.ok 0)
        (fun _ => DelResult.ok) =
      unsupportedOutcome Nat (pyLower (pySuffix "notes.xyz")) ∧
    (parse_document Nat "notes.xyz" (Except.ok ()) (fun _ => Except.ok 0)
        (fun _ => DelResult.ok)).filesCreated = 0 ∧
    (parse_document Nat "notes.xyz" (Except.ok ()) (fun _ => Except.ok 0)
        (fun _ => DelResult.ok)).cleanup = none ∧
    (parse_document Nat "notes.xyz" (Except.ok ()) (fun _ => Except.ok 0)
        (fun _ => DelResult.ok)).parserInvoked = none :=
  claim_C7 Nat "notes.xyz" (Except.ok ()) (fun _ => Except.ok 0)
    (fun _ => DelResult.ok) (by decide)

/-- C8: when the extension is registered, staging succeeds and the
selected parser capability returns c, the handler responds HTTP 200 with
the success envelope whose content is exactly c, and the parser invoked
is exactly the one the registry maps the lower-cased extension to. -/
theorem claim_C8 (α : Type) (fn : String) (rp : ParserId → Except String α)
    (dor : Nat → DelResult) (p : ParserId) (c : α)
    (hp : List.lookup (pyLower (pySuffix fn)) PARSER_MAP = some p)
    (hc : rp p = Except.ok c) :
    (parse_document α fn (Except.ok ()) rp dor).status = 200 ∧
    (parse_document α fn (Except.ok ()) rp dor).body = ResponseBody.success c ∧
    (parse_document α fn (Except.ok ()) rp dor).parserInvoked = some p := by
  have e : parse_document α fn (Except.ok ()) rp dor =
      ⟨200, ResponseBody.success c, 1, some p, some (runCleanup dor true)⟩ := by
    simp only [parse_document, hp, hc]
  rw [e]
  exact ⟨rfl, rfl, rfl⟩

theorem claim_C8_witness :
    (parse_document Nat "report.PDF" (Except.ok ())
        (fun _ => Except.ok 42) (fun _ => DelResult.ok)).status = 200 ∧
    (parse_document Nat "report.PDF" (Except.ok ()) (fun _ => Except.ok 42)
        (fun _ => DelResult.ok)).body = ResponseBody.success 42 ∧
    (parse_document Nat "report.PDF" (Except.ok ()) (fun _ => Except.ok 42)
        (fun _ => DelResult.ok)).parserInvoked = some ParserId.PdfParser :=
  claim_C8 Nat "report.PDF" (fun _ => Except.ok 42) (fun _ => DelResult.ok)
    ParserId.PdfParser 42 (by decide) rfl

/-- C9: GET /supported-formats returns exactly the registry keys, which
are the ten listed extensions in registry insertion order. The handler
and the registry are constants of the embedding (nothing in app.py
writes to PARSER_MAP after initialization), so every call returns this
identical, order-stable list. -/
theorem claim_C9 :
    get_supported_formats.supported_formats = parserMapKeys ∧
    parserMapKeys =
      [".pdf", ".docx", ".xlsx", ".xls", ".pptx", ".ppt",
       ".html", ".json", ".md", ".txt"] :=
  ⟨rfl, rfl⟩

/-- C10: a file name with no dot anywhere derives the empty suffix
(Path(filename).suffix has no dot to find), the empty string is not a
registry key, so the handler takes the unsupported-format path with the
empty string as the reported extension: no scratch file is created and
no parser is invoked. -/
theorem claim_C10 (α : Type) (fn : String) (stage : Except String Unit)
    (rp : ParserId → Except String α) (dor : Nat → DelResult)
    (h : ∀ c ∈ fn.data, c ≠ '.') :
    pySuffix fn = "" ∧
    List.lookup (pyLower (pySuffix fn)) PARSER_MAP = none ∧
    parse_document α fn stage rp dor = unsupportedOutcome α "" ∧
    (parse_document α fn stage rp dor).filesCreated = 0 ∧
    (parse_document α fn stage rp dor).parserInvoked = none := by
  have hs := pySuffix_eq_empty fn h
  have hl : List.lookup (pyLower (pySuffix fn)) PARSER_MAP = none := by
    rw [hs]; decide
  have hl2 : List.lookup (pyLower "") PARSER_MAP = none := by decide
  have e : parse_document α fn stage rp dor = unsupportedOutcome α "" := by
    simp only [parse_document, hs, hl2]
    rfl
  exact ⟨hs, hl, e, by rw [e]; rfl, by rw [e]; rfl⟩

theorem claim_C10_witness :
    pySuffix "README" = "" ∧
    List.lookup (pyLower (pySuffix "README")) PARSER_MAP = none ∧
    parse_document Nat "README" (Except.ok ()) (fun _ => Except.ok 0)
        (fun _ => DelResult.ok) = unsupportedOutcome Nat "" ∧
    (parse_document Nat "README" (Except.ok ()) (fun _ => Except.ok 0)
        (fun _ => DelResult.ok)).filesCreated = 0 ∧
    (parse_document Nat "README" (Except.ok ()) (fun _ => Except.ok 0)
        (fun _ => DelResult.ok)).parserInvoked = none :=
  claim_C10 Nat "README" (Except.ok ()) (fun _ => Except.ok 0)
    (fun _ => DelResult.ok) (by decide)
